import Mathlib

/-!
Shallow embedding of the attribute-extraction engine of `src/Car_cover.py`
(functions `_detect_material`, `_detect_vehicle_type`, `_extract_size` and the
static method `CarCoverScraper._extract_cover_specs`).

Strings are modelled as `List Char`.  Python's `str.lower`/`str.upper` and the
character classes `\d` and `\s` of the `re` module are modelled on the ASCII
range (the program's keywords and patterns are ASCII, apart from the two
literal characters U+221A and U+00F3 in the size regex, which both case
mappings leave unchanged on the inputs of interest).  `re.IGNORECASE` search is
modelled by lower-casing the subject and matching the lower-cased pattern.  The
regexes of the program contain no constructs whose greedy backtracking differs
from maximal munch (each `\d+`/`\s*` is followed by a character it can never
consume), so each is embedded as a deterministic maximal-munch matcher tried at
every start position from the left, exactly as `re.search` does.
-/

/-- ASCII lower-casing, modelling Python `str.lower` on the ASCII range. -/
def pyLower (c : Char) : Char := c.toLower

/-- ASCII upper-casing, modelling Python `str.upper` on the ASCII range. -/
def pyUpper (c : Char) : Char := c.toUpper

/-- The character class `\d` of Python `re`, on the ASCII range. -/
def isDigit (c : Char) : Bool := '0' ≤ c && c ≤ '9'

/-- The character class `\s` of Python `re`, on the ASCII range:
space, tab, newline, carriage return, vertical tab, form feed. -/
def isSpace (c : Char) : Bool :=
  c == ' ' || c == '\t' || c == '\n' || c == '\r' || c == '\x0b' || c == '\x0c'

/-- Does `l` start with the literal `pat`?  (Matching a literal at a position.) -/
def startsWith : List Char → List Char → Bool
  | [], _ => true
  | _ :: _, [] => false
  | c :: cs, d :: ds => c == d && startsWith cs ds

/-- Python's substring operator `pat in l`: `pat` occurs contiguously in `l`. -/
def containsSeq (pat : List Char) : List Char → Bool
  | [] => startsWith pat []
  | l@(_ :: rest) => startsWith pat l || containsSeq pat rest

/-- Match the literal `pat` at the head of `l`, returning the rest on success. -/
def dropLit : List Char → List Char → Option (List Char)
  | [], l => some l
  | _ :: _, [] => none
  | c :: cs, d :: ds => if c = d then dropLit cs ds else none

/-- `re.search` as a boolean: try the position matcher `p` at every start
position of the subject, left to right (including the end position). -/
def searchB (p : List Char → Bool) : List Char → Bool
  | [] => p []
  | l@(_ :: rest) => p l || searchB p rest

/-- The ordered keyword table `materials` of `_detect_material`
(`src/Car_cover.py`, lines 15-20), in insertion order. -/
def materials : List (String × List String) :=
  [("polyester", ["polyester", "poly"]),
   ("nylon", ["nylon"]),
   ("cotton", ["cotton"]),
   ("PVC", ["PVC", "vinyl"])]

/-- First label of the table any of whose keywords occurs in `tl`
(the lower-cased text); the keyword is used verbatim, as in the source. -/
def findFirstMatch : List (String × List String) → List Char → Option String
  | [], _ => none
  | (mat, kws) :: rest, tl =>
    if kws.any (fun kw => containsSeq kw.toList tl) then some mat
    else findFirstMatch rest tl

/-- `_detect_material` (`src/Car_cover.py`, lines 14-25): lower-case the text,
then return the first material whose keyword list has a member occurring in it. -/
def _detect_material (text : List Char) : Option String :=
  findFirstMatch materials (text.map pyLower)

/-- The ordered keyword table `types` of `_detect_vehicle_type`
(`src/Car_cover.py`, lines 29-34), in insertion order. -/
def vehicleTypes : List (String × List String) :=
  [("SUV", ["SUV", "sport utility"]),
   ("sedan", ["sedan"]),
   ("hatchback", ["hatchback", "hatch"]),
   ("universal", ["universal", "all cars", "fit all"])]

/-- Like `findFirstMatch` but each keyword is upper-cased before the test,
as in `kw.upper() in text_upper` of the source. -/
def findFirstMatchUpper : List (String × List String) → List Char → Option String
  | [], _ => none
  | (vt, kws) :: rest, tu =>
    if kws.any (fun kw => containsSeq (kw.toList.map pyUpper) tu) then some vt
    else findFirstMatchUpper rest tu

/-- `_detect_vehicle_type` (`src/Car_cover.py`, lines 28-39): upper-case the
text, then return the first type whose upper-cased keyword occurs in it. -/
def _detect_vehicle_type (text : List Char) : Option String :=
  findFirstMatchUpper vehicleTypes (text.map pyUpper)

/-- The literal `cm` of the size regex. -/
def cmL : List Char := ['c', 'm']

/-- The separator character class `[x√ó]` of the size regex
(`src/Car_cover.py`, line 43): the three characters `x`, U+221A, U+00F3. -/
def sepClass : List Char := ['x', '√', 'ó']

/-- Match the regex `(\d+)\s*cm\s*[x√ó]\s*(\d+)\s*cm` at the head of `l`,
returning the two captured digit groups.  Greedy `\d+`/`\s*` are maximal
munch, which is faithful here (see the header comment). -/
def sizeMatchAt (l : List Char) : Option (List Char × List Char) :=
  let d1 := l.takeWhile isDigit
  if d1.isEmpty then none else
    match dropLit cmL ((l.dropWhile isDigit).dropWhile isSpace) with
    | none => none
    | some r2 =>
      match r2.dropWhile isSpace with
      | [] => none
      | c :: r4 =>
        if sepClass.contains c then
          let r5 := r4.dropWhile isSpace
          let d2 := r5.takeWhile isDigit
          if d2.isEmpty then none else
            match dropLit cmL ((r5.dropWhile isDigit).dropWhile isSpace) with
            | some _ => some (d1, d2)
            | none => none
        else none

/-- `re.search` for the size regex: first (leftmost) match wins. -/
def reSearchSize : List Char → Option (List Char × List Char)
  | [] => sizeMatchAt []
  | l@(_ :: rest) =>
    match sizeMatchAt l with
    | some g => some g
    | none => reSearchSize rest

/-- `_extract_size` (`src/Car_cover.py`, lines 42-46): on a match, format the
two digit groups as `"{g1}x{g2}cm"`; otherwise `None`. -/
def _extract_size (text : List Char) : Option (List Char) :=
  match reSearchSize text with
  | some g => some (g.1 ++ 'x' :: (g.2 ++ cmL))
  | none => none

/-- Position matcher for `water\s*proof|rain\s*proof` under `re.I`
(subject already lower-cased). -/
def wpAt (l : List Char) : Bool :=
  (match dropLit ['w', 'a', 't', 'e', 'r'] l with
   | some r => (dropLit ['p', 'r', 'o', 'o', 'f'] (r.dropWhile isSpace)).isSome
   | none => false) ||
  (match dropLit ['r', 'a', 'i', 'n'] l with
   | some r => (dropLit ['p', 'r', 'o', 'o', 'f'] (r.dropWhile isSpace)).isSome
   | none => false)

/-- Position matcher for `UV|ultraviolet|sun\s*protect` under `re.I`
(subject already lower-cased). -/
def uvAt (l : List Char) : Bool :=
  (dropLit ['u', 'v'] l).isSome ||
  (dropLit ['u', 'l', 't', 'r', 'a', 'v', 'i', 'o', 'l', 'e', 't'] l).isSome ||
  (match dropLit ['s', 'u', 'n'] l with
   | some r => (dropLit ['p', 'r', 'o', 't', 'e', 'c', 't'] (r.dropWhile isSpace)).isSome
   | none => false)

/-- The waterproof flag of `_extract_cover_specs` (`src/Car_cover.py`, line 74):
`bool(re.search(r'water\s*proof|rain\s*proof', description, re.I))`. -/
def is_waterproof_flag (text : List Char) : Bool :=
  searchB wpAt (text.map pyLower)

/-- The UV flag of `_extract_cover_specs` (`src/Car_cover.py`, line 75):
`bool(re.search(r'UV|ultraviolet|sun\s*protect', description, re.I))`. -/
def has_uv_flag (text : List Char) : Bool :=
  searchB uvAt (text.map pyLower)

/-- The `specs` dictionary returned by `_extract_cover_specs`. -/
structure AttributeRecord where
  material : Option String
  vehicle_type : Option String
  is_waterproof : Bool
  has_uv_protection : Bool
  size : Option (List Char)
deriving DecidableEq

/-- `CarCoverScraper._extract_cover_specs` (`src/Car_cover.py`, lines 68-78):
assemble the five independently computed fields into one record. -/
def _extract_cover_specs (description : List Char) : AttributeRecord :=
  { material := _detect_material description
    vehicle_type := _detect_vehicle_type description
    is_waterproof := is_waterproof_flag description
    has_uv_protection := has_uv_flag description
    size := _extract_size description }

/-! ### Helper lemmas -/

/-- Matching a literal at a position succeeds whenever the position starts
with the literal. -/
theorem dropLit_isSome_of_startsWith :
    ∀ (pat l : List Char), startsWith pat l = true → (dropLit pat l).isSome = true
  | [], _, _ => rfl
  | _ :: _, [], h => by simp [startsWith] at h
  | c :: cs, d :: ds, h => by
    simp [startsWith] at h
    simp [dropLit, h.1, dropLit_isSome_of_startsWith cs ds h.2]

/-- If a literal occurs in the subject and the position matcher accepts every
position starting with that literal, the search succeeds. -/
theorem searchB_of_contains (p : List Char → Bool) (pat : List Char)
    (hp : ∀ t, startsWith pat t = true → p t = true) :
    ∀ l, containsSeq pat l = true → searchB p l = true
  | [], hc => by
    simp [containsSeq] at hc
    simp [searchB, hp [] hc]
  | c :: rest, hc => by
    simp [containsSeq] at hc
    rcases hc with hc | hc
    · simp [searchB, hp _ hc]
    · simp [searchB, searchB_of_contains p pat hp rest hc]

/-- `takeWhile` over an append whose left part wholly satisfies the predicate
and whose right part starts by failing it. -/
theorem takeWhile_app (p : Char → Bool) :
    ∀ (w l : List Char), w.all p = true → l.takeWhile p = [] →
      (w ++ l).takeWhile p = w
  | [], l, _, hl => by simpa using hl
  | a :: w, l, hw, hl => by
    rw [List.all_cons, Bool.and_eq_true] at hw
    simp [List.takeWhile_cons, hw.1, takeWhile_app p w l hw.2 hl]

/-- `dropWhile` over an append whose left part wholly satisfies the predicate. -/
theorem dropWhile_app (p : Char → Bool) :
    ∀ (w l : List Char), w.all p = true → (w ++ l).dropWhile p = l.dropWhile p
  | [], _, _ => by simp
  | a :: w, l, hw => by
    rw [List.all_cons, Bool.and_eq_true] at hw
    simp [List.dropWhile_cons, hw.1, dropWhile_app p w l hw.2]

/-- An ASCII decimal digit is not regex whitespace. -/
theorem not_space_of_digit (c : Char) (h : isDigit c = true) : isSpace c = false := by
  rcases Bool.eq_false_or_eq_true (isSpace c) with hs | hs
  · simp [isSpace] at hs
    rcases hs with ((((rfl | rfl) | rfl) | rfl) | rfl) | rfl <;> exact absurd h (by decide)
  · exact hs

theorem sizeMatchAt_canonical (w h : List Char) (sep : Char)
    (hw : w ≠ []) (hh : h ≠ []) (hwd : w.all isDigit = true) (hhd : h.all isDigit = true)
    (hs : sep = 'x' ∨ sep = '√' ∨ sep = 'ó') :
    sizeMatchAt (w ++ ('c' :: 'm' :: ' ' :: sep :: ' ' :: (h ++ cmL))) = some (w, h) := by
  obtain ⟨b, h', rfl⟩ := List.exists_cons_of_ne_nil hh
  have hb : isDigit b = true := by
    have h2 := hhd
    rw [List.all_cons, Bool.and_eq_true] at h2
    exact h2.1
  have dc : isDigit 'c' = false := by decide
  have sc : isSpace 'c' = false := by decide
  have ssp : isSpace ' ' = true := by decide
  have hsep : isSpace sep = false := by rcases hs with rfl | rfl | rfl <;> decide
  have hsepC : sepClass.contains sep = true := by rcases hs with rfl | rfl | rfl <;> decide
  have hbs : isSpace b = false := not_space_of_digit b hb
  have hwE : w.isEmpty = false := by
    cases w with
    | nil => exact absurd rfl hw
    | cons a t => rfl
  have e1 : List.takeWhile isDigit
      (w ++ ('c' :: 'm' :: ' ' :: sep :: ' ' :: (b :: (h' ++ cmL)))) = w :=
    takeWhile_app isDigit w _ hwd (by simp [List.takeWhile_cons, dc])
  have e2 : List.dropWhile isDigit
      (w ++ ('c' :: 'm' :: ' ' :: sep :: ' ' :: (b :: (h' ++ cmL)))) =
      'c' :: 'm' :: ' ' :: sep :: ' ' :: (b :: (h' ++ cmL)) := by
    rw [dropWhile_app isDigit w _ hwd]
    simp [List.dropWhile_cons, dc]
  have e3 : List.dropWhile isSpace
      ('c' :: 'm' :: ' ' :: sep :: ' ' :: (b :: (h' ++ cmL))) =
      'c' :: 'm' :: ' ' :: sep :: ' ' :: (b :: (h' ++ cmL)) := by
    simp [List.dropWhile_cons, sc]
  have e4 : dropLit cmL ('c' :: 'm' :: ' ' :: sep :: ' ' :: (b :: (h' ++ cmL))) =
      some (' ' :: sep :: ' ' :: (b :: (h' ++ cmL))) := by
    simp [dropLit, cmL]
  have e5 : List.dropWhile isSpace (' ' :: sep :: ' ' :: (b :: (h' ++ cmL))) =
      sep :: ' ' :: (b :: (h' ++ cmL)) := by
    simp [List.dropWhile_cons, ssp, hsep]
  have e6 : List.dropWhile isSpace (' ' :: (b :: (h' ++ cmL))) = b :: (h' ++ cmL) := by
    simp [List.dropWhile_cons, ssp, hbs]
  have e7 : List.takeWhile isDigit (b :: (h' ++ cmL)) = b :: h' := by
    rw [← List.cons_append]
    exact takeWhile_app isDigit (b :: h') cmL hhd (by decide)
  have e8 : List.dropWhile isDigit (b :: (h' ++ cmL)) = cmL := by
    rw [← List.cons_append, dropWhile_app isDigit (b :: h') cmL hhd]
    decide
  have e9 : List.dropWhile isSpace cmL = cmL := by decide
  have e10 : dropLit cmL cmL = some [] := by decide
  rw [List.cons_append]
  simp only [sizeMatchAt]
  rw [e1, e2, e3, e4]
  simp only [hwE, Bool.false_eq_true, if_false]
  rw [e5]
  simp only [hsepC, if_true]
  rw [e6, e7, e8, e9, e10]
  simp

theorem extract_size_canonical (w h : List Char) (sep : Char)
    (hw : w ≠ []) (hh : h ≠ []) (hwd : w.all isDigit = true) (hhd : h.all isDigit = true)
    (hs : sep = 'x' ∨ sep = '√' ∨ sep = 'ó') :
    _extract_size (w ++ ('c' :: 'm' :: ' ' :: sep :: ' ' :: (h ++ cmL))) =
      some (w ++ 'x' :: (h ++ cmL)) := by
  obtain ⟨a, w', rfl⟩ := List.exists_cons_of_ne_nil hw
  have hm := sizeMatchAt_canonical (a :: w') h sep (by simp) hh hwd hhd hs
  rw [List.cons_append] at hm ⊢
  unfold _extract_size reSearchSize
  rw [hm]

/-- Claim C1, counterexample: the size regex has no `re.IGNORECASE` flag, so on
the input `"150CM X 120CM"` the engine does not return size `"150x120cm"`. -/
theorem C1_counterexample :
    (_extract_cover_specs ("150CM X 120CM".toList)).size ≠ some ("150x120cm".toList) := by
  decide

/-- Claim C1, amended: the dimension parser is case-sensitive in the unit and
separator.  Lowercase `"150cm x 120cm"` normalizes to `"150x120cm"`, but
`"150CM X 120CM"` yields an absent size, and so does either an uppercase
separator or an uppercase unit alone. -/
theorem C1_amended_case_sensitive :
    _extract_size ("150cm x 120cm".toList) = some ("150x120cm".toList) ∧
    (_extract_cover_specs ("150CM X 120CM".toList)).size = none ∧
    _extract_size ("150cm X 120cm".toList) = none ∧
    _extract_size ("150CM x 120CM".toList) = none := by
  decide

/-- Claim C2, code bug: the keyword `"PVC"` is compared against the lower-cased
text, so it can never match: the inputs `"pvc"`, `"PVC"`, `"Pvc"` all yield an
absent material, and the `PVC` label is reachable only through `"vinyl"`. -/
theorem C2_pvc_keyword_unreachable :
    _detect_material ("pvc".toList) = none ∧
    _detect_material ("PVC".toList) = none ∧
    _detect_material ("Pvc".toList) = none ∧
    _detect_material ("vinyl".toList) = some "PVC" := by
  decide

/-- Claim C3: totality — for every input string the extraction operation
returns an `AttributeRecord` (the embedded engine is a total function). -/
theorem C3_totality (s : List Char) :
    ∃ r : AttributeRecord, _extract_cover_specs s = r :=
  ⟨_extract_cover_specs s, rfl⟩

/-- Claim C4: determinism — two invocations of the extraction operation on
identical input text yield identical records. -/
theorem C4_determinism (s t : List Char) (h : s = t) :
    _extract_cover_specs s = _extract_cover_specs t := by
  rw [h]

/-- Witness for claim C4 at a concrete input. -/
theorem C4_determinism_witness :
    ("car cover".toList : List Char) = "car cover".toList ∧
    _extract_cover_specs ("car cover".toList) = _extract_cover_specs ("car cover".toList) :=
  ⟨rfl, C4_determinism _ _ rfl⟩

/-- Claim C5: material precedence — any text whose lower-casing contains both
the keyword `poly` and the keyword `nylon` classifies as `polyester`, the first
label in the fixed evaluation order, not as `nylon`. -/
theorem C5_material_precedence (s : List Char)
    (hp : containsSeq ['p', 'o', 'l', 'y'] (s.map pyLower) = true)
    (hn : containsSeq ['n', 'y', 'l', 'o', 'n'] (s.map pyLower) = true) :
    _detect_material s = some "polyester" := by
  simp [_detect_material, materials, findFirstMatch, hp]

/-- Witness for claim C5 at a concrete input. -/
theorem C5_material_precedence_witness :
    containsSeq ['p', 'o', 'l', 'y'] (("Poly and NYLON mix".toList).map pyLower) = true ∧
    containsSeq ['n', 'y', 'l', 'o', 'n'] (("Poly and NYLON mix".toList).map pyLower) = true ∧
    _detect_material ("Poly and NYLON mix".toList) = some "polyester" :=
  ⟨by decide, by decide, C5_material_precedence _ (by decide) (by decide)⟩

/-- Claim C6: end-to-end scenario — the full engine output on the
waterproof-polyester example description. -/
theorem C6_end_to_end :
    _extract_cover_specs
        ("Waterproof polyester car cover, universal fit, UV protection, 200cm x 180cm".toList) =
      { material := some "polyester", vehicle_type := some "universal",
        is_waterproof := true, has_uv_protection := true,
        size := some ("200x180cm".toList) } := by
  decide

/-- Claim C7: empty-string boundary — the engine returns the all-absent,
all-false record on the empty string. -/
theorem C7_empty_string :
    _extract_cover_specs ("".toList) =
      { material := none, vehicle_type := none, is_waterproof := false,
        has_uv_protection := false, size := none } := by
  decide

/-- Claim C8: flag independence — any text the waterproof detector accepts and
the UV detector rejects yields `is_waterproof = true` and
`has_uv_protection = false`; the two detectors are evaluated independently. -/
theorem C8_flag_independence (s : List Char)
    (hw : is_waterproof_flag s = true) (hu : has_uv_flag s = false) :
    (_extract_cover_specs s).is_waterproof = true ∧
    (_extract_cover_specs s).has_uv_protection = false := by
  simp [_extract_cover_specs, hw, hu]

/-- Witness for claim C8 at a concrete input containing only `rain proof`. -/
theorem C8_flag_independence_witness :
    is_waterproof_flag ("This cover is rain proof".toList) = true ∧
    has_uv_flag ("This cover is rain proof".toList) = false ∧
    ((_extract_cover_specs ("This cover is rain proof".toList)).is_waterproof = true ∧
     (_extract_cover_specs ("This cover is rain proof".toList)).has_uv_protection = false) :=
  ⟨by decide, by decide, C8_flag_independence _ (by decide) (by decide)⟩

/-- Claim C9: the separator class of the size regex is exactly the three
characters `x`, U+221A, U+00F3 — canonical inputs with separator U+221A or
U+00F3 (lowercase `cm`) normalize to `"<W>x<H>cm"`, while the letter `X` and
the real multiplication sign U+00D7 do not match. -/
theorem C9_separator_class (w h : List Char)
    (hw : w ≠ []) (hh : h ≠ []) (hwd : w.all isDigit = true) (hhd : h.all isDigit = true) :
    _extract_size (w ++ ('c' :: 'm' :: ' ' :: '√' :: ' ' :: (h ++ cmL))) =
      some (w ++ 'x' :: (h ++ cmL)) ∧
    _extract_size (w ++ ('c' :: 'm' :: ' ' :: 'ó' :: ' ' :: (h ++ cmL))) =
      some (w ++ 'x' :: (h ++ cmL)) ∧
    _extract_size ("1cm × 2cm".toList) = none ∧
    _extract_size ("1cm X 2cm".toList) = none :=
  ⟨extract_size_canonical w h '√' hw hh hwd hhd (Or.inr (Or.inl rfl)),
   extract_size_canonical w h 'ó' hw hh hwd hhd (Or.inr (Or.inr rfl)),
   by decide, by decide⟩

/-- Witness for claim C9 at concrete digit groups. -/
theorem C9_separator_class_witness :
    (("150".toList : List Char) ≠ [] ∧ ("120".toList : List Char) ≠ [] ∧
     "150".toList.all isDigit = true ∧ "120".toList.all isDigit = true) ∧
    (_extract_size ("150".toList ++ ('c' :: 'm' :: ' ' :: '√' :: ' ' :: ("120".toList ++ cmL))) =
       some ("150".toList ++ 'x' :: ("120".toList ++ cmL)) ∧
     _extract_size ("150".toList ++ ('c' :: 'm' :: ' ' :: 'ó' :: ' ' :: ("120".toList ++ cmL))) =
       some ("150".toList ++ 'x' :: ("120".toList ++ cmL)) ∧
     _extract_size ("1cm × 2cm".toList) = none ∧
     _extract_size ("1cm X 2cm".toList) = none) :=
  ⟨⟨by decide, by decide, by decide, by decide⟩,
   C9_separator_class _ _ (by decide) (by decide) (by decide) (by decide)⟩

/-- Claim C10: the UV detector is a plain case-insensitive substring search for
`uv` — any text whose lower-casing contains the two-letter sequence `uv`, even
inside an unrelated word, sets `has_uv_protection`. -/
theorem C10_uv_substring (s : List Char)
    (h : containsSeq ['u', 'v'] (s.map pyLower) = true) :
    (_extract_cover_specs s).has_uv_protection = true := by
  have huv : has_uv_flag s = true := by
    unfold has_uv_flag
    refine searchB_of_contains uvAt ['u', 'v'] ?_ _ h
    intro t ht
    have hd := dropLit_isSome_of_startsWith ['u', 'v'] t ht
    simp [uvAt, hd]
  simp [_extract_cover_specs, huv]

/-- Witness for claim C10 at the unrelated word `Louvre`. -/
theorem C10_uv_substring_witness :
    containsSeq ['u', 'v'] (("Louvre museum".toList).map pyLower) = true ∧
    (_extract_cover_specs ("Louvre museum".toList)).has_uv_protection = true :=
  ⟨by decide, C10_uv_substring _ (by decide)⟩
